import Mathlib

/-!
Shallow embedding of `src/plugins/debug.rs` (the `PhysicsDebugPlugin` debug
renderer of the avian physics overlay), 2D configuration.

Coordinates are idealised as rationals.  Only the xy-components of points
matter: every drawn primitive truncates its arguments to 2D, the inputs all
have z = 0, and the xy-components of `Transform::transform_point` applied to a
z = 0 point are a linear function of (x, y) plus the translation, so the
transform is embedded as a 2D affine map with separate translation, rotation
(an arbitrary 2x2 matrix: the xy-action of the 3D rotation on z = 0 vectors)
and scale components, applied in bevy's order: scale, then rotation, then
translation.
-/

namespace Avian

/-- A 2D point / vector with rational coordinates. -/
structure Vec2 where
  x : ℚ
  y : ℚ
deriving DecidableEq, Repr

instance : Add Vec2 := ⟨fun a b => ⟨a.x + b.x, a.y + b.y⟩⟩

instance : Sub Vec2 := ⟨fun a b => ⟨a.x - b.x, a.y - b.y⟩⟩

/-- A 2x2 matrix, the xy-action of a rotation (or any linear map) on z = 0
vectors. -/
structure Mat2 where
  m00 : ℚ
  m01 : ℚ
  m10 : ℚ
  m11 : ℚ
deriving DecidableEq, Repr

def Mat2.mulVec (m : Mat2) (v : Vec2) : Vec2 :=
  ⟨m.m00 * v.x + m.m01 * v.y, m.m10 * v.x + m.m11 * v.y⟩

/-- The identity 2x2 matrix. -/
def Mat2.id : Mat2 := ⟨1, 0, 0, 1⟩

/-- Embedding of bevy's `Transform` restricted to its action on z = 0 points
followed by truncation to 2D: translation, rotation and scale components. -/
structure Transform where
  translation : Vec2
  rotation : Mat2
  scale : Vec2
deriving DecidableEq, Repr

/-- `Transform::transform_point`: scale, then rotate, then translate
(bevy applies the components in this order). -/
def Transform.transform_point (t : Transform) (p : Vec2) : Vec2 :=
  t.translation + t.rotation.mulVec ⟨t.scale.x * p.x, t.scale.y * p.y⟩

/-- The identity transform. -/
def Transform.identity : Transform := ⟨⟨0, 0⟩, Mat2.id, ⟨1, 1⟩⟩

/-- Gizmo colors used by the debug renderer. -/
inductive Color where
  | GRAY
  | WHITE
  | CYAN
deriving DecidableEq, Repr

/-- A record of a single call to the gizmo drawing surface. -/
inductive GizmoCmd where
  /-- `gizmos.line_2d(start, end, color)`. -/
  | line_2d (s e : Vec2) (color : Color)
  /-- `gizmos.circle_2d(center, radius, color)`. -/
  | circle_2d (center : Vec2) (radius : ℚ) (color : Color)
  /-- `gizmos.cuboid(Transform::from_scale(scale).with_translation(translation), color)`
  as used by the AABB pass (2D: only xy-components retained). -/
  | cuboid (scale translation : Vec2) (color : Color)
deriving DecidableEq, Repr

/-- One output of the collider pass: either a drawing-surface call or a
logged warning (`bevy::log::warn!`). -/
inductive Out where
  | draw (g : GizmoCmd)
  | warn (msg : String)
deriving DecidableEq, Repr

/-- The collider shape union probed by the dispatcher.  The four supported
kinds carry exactly the data the renderer reads (radius; three named
vertices; ordered point list; half-extents); `unsupported` stands for any
shape kind outside the supported set (the shape library has many more). -/
inductive Shape where
  | ball (radius : ℚ)
  | triangle (a b c : Vec2)
  | convexPolygon (points : List Vec2)
  | cuboid (half_extents : Vec2)
  | unsupported
deriving DecidableEq, Repr

/-- `shape.as_ball()`: kind probe, `some radius` iff the shape is a ball. -/
def Shape.as_ball : Shape → Option ℚ
  | .ball r => some r
  | _ => none

/-- `shape.as_triangle()`: kind probe, the three named vertices a, b, c. -/
def Shape.as_triangle : Shape → Option (Vec2 × Vec2 × Vec2)
  | .triangle a b c => some (a, b, c)
  | _ => none

/-- `shape.as_convex_polygon()`: kind probe, the ordered local point list. -/
def Shape.as_convex_polygon : Shape → Option (List Vec2)
  | .convexPolygon pts => some pts
  | _ => none

/-- `shape.as_cuboid()`: kind probe, the local half-extents. -/
def Shape.as_cuboid : Shape → Option Vec2
  | .cuboid he => some he
  | _ => none

/-- Modelled from the spec: `Cuboid::to_polyline` lives in the external
geometry library, not under `src/`; the spec says a Cuboid is "first expanded
to its 4-point boundary loop in local space" from its half-extents.  The
four corners in boundary order. -/
def cuboid_to_polyline (he : Vec2) : List Vec2 :=
  [⟨he.x, -he.y⟩, ⟨he.x, he.y⟩, ⟨-he.x, he.y⟩, ⟨-he.x, -he.y⟩]

/-- The warning text logged when no kind probe matches. -/
def unsupported_warning : String :=
  "Can only render colliders for balls, cuboids, and polys at the mo."

/-- The `for i in 0..poly.points().len()` loop of the ConvexPolygon branch:
draw a white line from the running start point to the transformed current
point, then advance the start point. -/
def poly_outline_loop (t : Transform) (start : Vec2) : List Vec2 → List Out
  | [] => []
  | p :: ps =>
    Out.draw (GizmoCmd.line_2d start (t.transform_point p) Color.WHITE) ::
      poly_outline_loop t (t.transform_point p) ps

/-- The `for i in 0..points.len()` loop of the Cuboid branch (same iteration
pattern as the polygon branch; in the source the running point is kept as an
untruncated `Vec3`, but its z-component never influences the truncated draw
arguments, so the 2D embedding coincides). -/
def cuboid_outline_loop (t : Transform) (start : Vec2) : List Vec2 → List Out
  | [] => []
  | p :: ps =>
    Out.draw (GizmoCmd.line_2d start (t.transform_point p) Color.WHITE) ::
      cuboid_outline_loop t (t.transform_point p) ps

/-- The shape-dispatch tail of `debug_render_colliders` for one collider: the
`if let` chain probing ball, triangle, convex polygon, cuboid in order,
falling through to the warning.  `none` models a panic: the polygon and
cuboid branches call `.last().unwrap()` on the point list. -/
def debug_shape_dispatch (t : Transform) (shape : Shape) : Option (List Out) :=
  match shape.as_ball with
  | some ball => some [Out.draw (GizmoCmd.circle_2d t.translation ball Color.WHITE)]
  | none =>
  match shape.as_triangle with
  | some (a, b, c) =>
    some [Out.draw (GizmoCmd.line_2d (t.transform_point a) (t.transform_point b) Color.WHITE),
          Out.draw (GizmoCmd.line_2d (t.transform_point b) (t.transform_point c) Color.WHITE),
          Out.draw (GizmoCmd.line_2d (t.transform_point c) (t.transform_point a) Color.WHITE)]
  | none =>
  match shape.as_convex_polygon with
  | some pts =>
    match pts.getLast? with
    | none => none
    | some last_p => some (poly_outline_loop t (t.transform_point last_p) pts)
  | none =>
  match shape.as_cuboid with
  | some he =>
    match (cuboid_to_polyline he).getLast? with
    | none => none
    | some last_p =>
      some (cuboid_outline_loop t (t.transform_point last_p) (cuboid_to_polyline he))
  | none => some [Out.warn unsupported_warning]

/-- The "+" cross-hair drawn at the collider's centre before its outline:
two gray segments through the four transformed arm tips (arm length 3.0),
drawn as (a, c) then (b, d). -/
def center_marker (t : Transform) : List Out :=
  [Out.draw (GizmoCmd.line_2d (t.transform_point ⟨0, 3⟩) (t.transform_point ⟨0, -3⟩) Color.GRAY),
   Out.draw (GizmoCmd.line_2d (t.transform_point ⟨3, 0⟩) (t.transform_point ⟨-3, 0⟩) Color.GRAY)]

/-- One iteration of `debug_render_colliders`' entity loop: the centre
cross-hair, then the dispatched shape outline (or warning). -/
def render_collider (t : Transform) (s : Shape) : Option (List Out) :=
  (debug_shape_dispatch t s).map (fun outs => center_marker t ++ outs)

/-- `debug_render_colliders`: iterate the query results in order,
concatenating each entity's outputs.  `none` models a panic aborting the
pass. -/
def debug_render_colliders : List (Shape × Transform) → Option (List Out)
  | [] => some []
  | (s, t) :: rest =>
    match render_collider t s with
    | none => none
    | some outs => (debug_render_colliders rest).map (fun more => outs ++ more)

/-- A collider AABB.  Modelled from the spec: the `ColliderAabb` methods
`center()` and `extents()` live in the external geometry library, not under
`src/`; the spec describes an axis-aligned box carrying a centre and
(half-)extents in world space.  We carry min and max corners and derive
both. -/
structure ColliderAabb where
  mins : Vec2
  maxs : Vec2
deriving DecidableEq, Repr

/-- Modelled from the spec: full extents of the box, `maxs - mins`. -/
def ColliderAabb.extents (a : ColliderAabb) : Vec2 :=
  a.maxs - a.mins

/-- Modelled from the spec: centre of the box. -/
def ColliderAabb.center (a : ColliderAabb) : Vec2 :=
  ⟨(a.mins.x + a.maxs.x) / 2, (a.mins.y + a.maxs.y) / 2⟩

/-- `debug_render_aabbs` (2D configuration): one `gizmos.cuboid` call per
AABB, scaled to the extents and translated to the centre, in gray. -/
def debug_render_aabbs : List ColliderAabb → List GizmoCmd
  | [] => []
  | a :: rest =>
    GizmoCmd.cuboid a.extents a.center Color.GRAY :: debug_render_aabbs rest

/-- A `Collision` event's contact data: the two world-space contact points. -/
structure Collision where
  point1 : Vec2
  point2 : Vec2
deriving DecidableEq, Repr

/-- `debug_render_contacts` (2D configuration): for each collision event in
order, four cyan segments — the horizontal and vertical arms through point1,
then through point2, each of half-length 0.3. -/
def debug_render_contacts : List Collision → List GizmoCmd
  | [] => []
  | c :: rest =>
    GizmoCmd.line_2d (c.point1 - ⟨3/10, 0⟩) (c.point1 + ⟨3/10, 0⟩) Color.CYAN ::
    GizmoCmd.line_2d (c.point1 - ⟨0, 3/10⟩) (c.point1 + ⟨0, 3/10⟩) Color.CYAN ::
    GizmoCmd.line_2d (c.point2 - ⟨3/10, 0⟩) (c.point2 + ⟨3/10, 0⟩) Color.CYAN ::
    GizmoCmd.line_2d (c.point2 - ⟨0, 3/10⟩) (c.point2 + ⟨0, 3/10⟩) Color.CYAN ::
    debug_render_contacts rest

/-- The debug configuration resource: three independent toggles. -/
structure PhysicsDebugConfig where
  render_aabbs : Bool
  render_contacts : Bool
  render_colliders : Bool
deriving DecidableEq, Repr

/-- `Default for PhysicsDebugConfig`: everything enabled. -/
def PhysicsDebugConfig.default : PhysicsDebugConfig := ⟨true, true, true⟩

/-- The scheduled AABB pass as registered by `PhysicsDebugPlugin::build`:
the `run_if(config.render_aabbs)` guard evaluated once, gating the whole
pass. -/
def run_aabbs_system (cfg : PhysicsDebugConfig) (aabbs : List ColliderAabb) :
    List GizmoCmd :=
  if cfg.render_aabbs then debug_render_aabbs aabbs else []

/-- The scheduled collider pass: `run_if(config.render_colliders)`. -/
def run_colliders_system (cfg : PhysicsDebugConfig)
    (ents : List (Shape × Transform)) : Option (List Out) :=
  if cfg.render_colliders then debug_render_colliders ents else some []

/-- The scheduled contact pass: `run_if(config.render_contacts)`. -/
def run_contacts_system (cfg : PhysicsDebugConfig) (evs : List Collision) :
    List GizmoCmd :=
  if cfg.render_contacts then debug_render_contacts evs else []

/-- Spec-side decomposition of a contact marker: one cross-hair at a point,
two axis-aligned perpendicular segments of half-length 0.3. -/
def contact_cross (p : Vec2) : List GizmoCmd :=
  [GizmoCmd.line_2d (p - ⟨3/10, 0⟩) (p + ⟨3/10, 0⟩) Color.CYAN,
   GizmoCmd.line_2d (p - ⟨0, 3/10⟩) (p + ⟨0, 3/10⟩) Color.CYAN]

/-- Start point of a recorded line segment, if the output is one. -/
def seg_start : Out → Option Vec2
  | .draw (.line_2d s _ _) => some s
  | _ => none

/-- End point of a recorded line segment, if the output is one. -/
def seg_end : Out → Option Vec2
  | .draw (.line_2d _ e _) => some e
  | _ => none

/-! ### Helper lemmas -/

theorem Vec2.add_def (a b : Vec2) : a + b = ⟨a.x + b.x, a.y + b.y⟩ := rfl

theorem Vec2.sub_def (a b : Vec2) : a - b = ⟨a.x - b.x, a.y - b.y⟩ := rfl

theorem getLast?_cons_of_ne_nil {α : Type} (a : α) (l : List α) (h : l ≠ []) :
    (a :: l).getLast? = l.getLast? := by
  cases l with
  | nil => exact absurd rfl h
  | cons b m => exact List.getLast?_cons_cons

theorem poly_outline_loop_length (t : Transform) (pts : List Vec2) :
    ∀ start, (poly_outline_loop t start pts).length = pts.length := by
  induction pts with
  | nil => intro start; rfl
  | cons p ps ih => intro start; simp [poly_outline_loop, ih]

theorem poly_outline_loop_ne_nil (t : Transform) (start p : Vec2) (ps : List Vec2) :
    poly_outline_loop t start (p :: ps) ≠ [] := by
  simp [poly_outline_loop]

theorem poly_outline_loop_getLast (t : Transform) (pts : List Vec2) :
    ∀ start lp, pts.getLast? = some lp →
      ∃ q, (poly_outline_loop t start pts).getLast? =
        some (Out.draw (GizmoCmd.line_2d q (t.transform_point lp) Color.WHITE)) := by
  induction pts with
  | nil => intro start lp h; simp at h
  | cons p ps ih =>
    intro start lp h
    cases ps with
    | nil =>
      simp at h
      subst h
      exact ⟨start, rfl⟩
    | cons p2 ps2 =>
      rw [List.getLast?_cons_cons] at h
      obtain ⟨q, hq⟩ := ih (t.transform_point p) lp h
      refine ⟨q, ?_⟩
      rw [show poly_outline_loop t start (p :: p2 :: ps2) =
            Out.draw (GizmoCmd.line_2d start (t.transform_point p) Color.WHITE) ::
              poly_outline_loop t (t.transform_point p) (p2 :: ps2) from rfl,
          getLast?_cons_of_ne_nil _ _ (poly_outline_loop_ne_nil t _ p2 ps2)]
      exact hq

theorem cuboid_outline_loop_eq_poly (t : Transform) (pts : List Vec2) :
    ∀ start, cuboid_outline_loop t start pts = poly_outline_loop t start pts := by
  induction pts with
  | nil => intro start; rfl
  | cons p ps ih => intro start; simp [cuboid_outline_loop, poly_outline_loop, ih]

/-! ### Claim theorems -/

/-- C1: for every ConvexPolygon with n ≥ 3 local points and every transform,
the shape-outline pass emits exactly n line segments forming a closed loop
(the last segment's end equals the first segment's start), starting with the
edge from the transformed last point to the transformed first point. -/
theorem convex_polygon_outline_closed (pts : List Vec2) (t : Transform)
    (h : 3 ≤ pts.length) :
    ∃ segs fp lp,
      pts.head? = some fp ∧ pts.getLast? = some lp ∧
      debug_shape_dispatch t (Shape.convexPolygon pts) = some segs ∧
      render_collider t (Shape.convexPolygon pts) = some (center_marker t ++ segs) ∧
      segs.length = pts.length ∧
      segs.head? = some (Out.draw (GizmoCmd.line_2d (t.transform_point lp)
        (t.transform_point fp) Color.WHITE)) ∧
      segs.getLast?.bind seg_end = some (t.transform_point lp) ∧
      segs.getLast?.bind seg_end = segs.head?.bind seg_start := by
  cases pts with
  | nil => simp at h
  | cons p ps =>
    obtain ⟨lp, hlp⟩ := Option.isSome_iff_exists.mp
      (List.getLast?_isSome.mpr (List.cons_ne_nil p ps))
    refine ⟨poly_outline_loop t (t.transform_point lp) (p :: ps), p, lp, rfl, hlp,
      ?_, ?_, ?_, ?_, ?_, ?_⟩
    · simp [debug_shape_dispatch, Shape.as_ball, Shape.as_triangle,
        Shape.as_convex_polygon, hlp]
    · simp [render_collider, debug_shape_dispatch, Shape.as_ball, Shape.as_triangle,
        Shape.as_convex_polygon, hlp]
    · exact poly_outline_loop_length t (p :: ps) _
    · rfl
    · obtain ⟨q, hq⟩ := poly_outline_loop_getLast t (p :: ps) (t.transform_point lp) lp hlp
      rw [hq]
      rfl
    · obtain ⟨q, hq⟩ := poly_outline_loop_getLast t (p :: ps) (t.transform_point lp) lp hlp
      rw [hq]
      rfl

/-- Witness for C1: the unit square under the identity transform. -/
theorem convex_polygon_outline_closed_witness :
    ∃ segs fp lp,
      ([⟨0, 0⟩, ⟨1, 0⟩, ⟨1, 1⟩, ⟨0, 1⟩] : List Vec2).head? = some fp ∧
      ([⟨0, 0⟩, ⟨1, 0⟩, ⟨1, 1⟩, ⟨0, 1⟩] : List Vec2).getLast? = some lp ∧
      debug_shape_dispatch Transform.identity
        (Shape.convexPolygon [⟨0, 0⟩, ⟨1, 0⟩, ⟨1, 1⟩, ⟨0, 1⟩]) = some segs ∧
      render_collider Transform.identity
        (Shape.convexPolygon [⟨0, 0⟩, ⟨1, 0⟩, ⟨1, 1⟩, ⟨0, 1⟩]) =
        some (center_marker Transform.identity ++ segs) ∧
      segs.length = ([⟨0, 0⟩, ⟨1, 0⟩, ⟨1, 1⟩, ⟨0, 1⟩] : List Vec2).length ∧
      segs.head? = some (Out.draw (GizmoCmd.line_2d
        (Transform.identity.transform_point lp)
        (Transform.identity.transform_point fp) Color.WHITE)) ∧
      segs.getLast?.bind seg_end = some (Transform.identity.transform_point lp) ∧
      segs.getLast?.bind seg_end = segs.head?.bind seg_start :=
  convex_polygon_outline_closed [⟨0, 0⟩, ⟨1, 0⟩, ⟨1, 1⟩, ⟨0, 1⟩]
    Transform.identity (by decide)

/-- C2: for every Ball with radius r and transform, the shape-outline pass
emits exactly one circle primitive centred at the transform's translation
with radius r, and the ball's outline is identical for any two transforms
that agree on translation and scale (rotation-invariance). -/
theorem ball_outline_rotation_invariant (r : ℚ) (t : Transform) :
    debug_shape_dispatch t (Shape.ball r) =
      some [Out.draw (GizmoCmd.circle_2d t.translation r Color.WHITE)] ∧
    render_collider t (Shape.ball r) =
      some (center_marker t ++
        [Out.draw (GizmoCmd.circle_2d t.translation r Color.WHITE)]) ∧
    ∀ t2 : Transform, t2.translation = t.translation → t2.scale = t.scale →
      debug_shape_dispatch t2 (Shape.ball r) = debug_shape_dispatch t (Shape.ball r) := by
  refine ⟨rfl, rfl, ?_⟩
  intro t2 htr _
  simp [debug_shape_dispatch, Shape.as_ball, htr]

/-- Witness for C2: a ball of radius 1 at translation (2, 3); the transform
with a quarter-turn rotation renders identically to the unrotated one. -/
theorem ball_outline_rotation_invariant_witness :
    debug_shape_dispatch ⟨⟨2, 3⟩, ⟨0, -1, 1, 0⟩, ⟨1, 1⟩⟩ (Shape.ball 1) =
      debug_shape_dispatch ⟨⟨2, 3⟩, Mat2.id, ⟨1, 1⟩⟩ (Shape.ball 1) ∧
    debug_shape_dispatch ⟨⟨2, 3⟩, Mat2.id, ⟨1, 1⟩⟩ (Shape.ball 1) =
      some [Out.draw (GizmoCmd.circle_2d ⟨2, 3⟩ 1 Color.WHITE)] :=
  ⟨(ball_outline_rotation_invariant 1 ⟨⟨2, 3⟩, Mat2.id, ⟨1, 1⟩⟩).2.2
      ⟨⟨2, 3⟩, ⟨0, -1, 1, 0⟩, ⟨1, 1⟩⟩ rfl rfl,
    (ball_outline_rotation_invariant 1 ⟨⟨2, 3⟩, Mat2.id, ⟨1, 1⟩⟩).1⟩

/-- C3: for every Cuboid and every transform, the Cuboid branch emits the same
segment sequence as the ConvexPolygon branch applied to the cuboid's 4-point
boundary polyline under the same transform. -/
theorem cuboid_outline_refines_polygon (he : Vec2) (t : Transform) :
    debug_shape_dispatch t (Shape.cuboid he) =
      debug_shape_dispatch t (Shape.convexPolygon (cuboid_to_polyline he)) ∧
    render_collider t (Shape.cuboid he) =
      render_collider t (Shape.convexPolygon (cuboid_to_polyline he)) := by
  have hd : debug_shape_dispatch t (Shape.cuboid he) =
      debug_shape_dispatch t (Shape.convexPolygon (cuboid_to_polyline he)) := by
    simp [debug_shape_dispatch, Shape.as_ball, Shape.as_triangle,
      Shape.as_convex_polygon, Shape.as_cuboid, cuboid_to_polyline,
      cuboid_outline_loop_eq_poly]
  exact ⟨hd, by simp [render_collider, hd]⟩

/-- C4: an unsupported shape makes the dispatcher emit the warning and zero
outline primitives for that entity, and the pass continues with the
remaining entities — the outputs of the rest are still produced after it. -/
theorem unsupported_shape_skipped (t : Transform) (rest : List (Shape × Transform)) :
    debug_shape_dispatch t Shape.unsupported = some [Out.warn unsupported_warning] ∧
    render_collider t Shape.unsupported =
      some (center_marker t ++ [Out.warn unsupported_warning]) ∧
    debug_render_colliders ((Shape.unsupported, t) :: rest) =
      (debug_render_colliders rest).map
        (fun more => (center_marker t ++ [Out.warn unsupported_warning]) ++ more) := by
  exact ⟨rfl, rfl, rfl⟩

/-- C5: the contact pass draws, per collision event in event order, exactly
two cross-hair markers (one at point1, one at point2), each a pair of
axis-aligned perpendicular segments of half-length 3/10; an empty event
sequence produces zero draw calls. -/
theorem contacts_cross_markers (evs : List Collision) :
    debug_render_contacts ([] : List Collision) = [] ∧
    debug_render_contacts evs =
      (evs.map (fun c => contact_cross c.point1 ++ contact_cross c.point2)).flatten := by
  refine ⟨rfl, ?_⟩
  induction evs with
  | nil => rfl
  | cons c rest ih => simp [debug_render_contacts, contact_cross, ih]

/-- C6: with the bounding-volume toggle disabled the scheduled AABB pass
emits zero draw calls for any entity list, and the toggle gates the whole
pass once up front: the scheduled pass is the toggle-conditional of the
(configuration-independent) per-entity loop. -/
theorem aabbs_disabled_no_draws (cfg : PhysicsDebugConfig)
    (aabbs : List ColliderAabb) (h : cfg.render_aabbs = false) :
    run_aabbs_system cfg aabbs = [] ∧
    ∀ (cfg2 : PhysicsDebugConfig) (bs : List ColliderAabb),
      run_aabbs_system cfg2 bs =
        if cfg2.render_aabbs then debug_render_aabbs bs else [] := by
  exact ⟨by simp [run_aabbs_system, h], fun _ _ => rfl⟩

/-- Witness for C6: a disabled config with one AABB present draws nothing. -/
theorem aabbs_disabled_no_draws_witness :
    (⟨false, true, true⟩ : PhysicsDebugConfig).render_aabbs = false ∧
    run_aabbs_system ⟨false, true, true⟩ [⟨⟨0, 0⟩, ⟨2, 1⟩⟩] = [] :=
  ⟨rfl, (aabbs_disabled_no_draws ⟨false, true, true⟩ [⟨⟨0, 0⟩, ⟨2, 1⟩⟩] rfl).1⟩

/-- C7: for every Triangle with vertices a, b, c and every transform, the
shape-outline pass emits exactly the three segments a→b, b→c, c→a between the
transformed vertices (after the centre cross-hair). -/
theorem triangle_outline_edges (a b c : Vec2) (t : Transform) :
    render_collider t (Shape.triangle a b c) =
      some (center_marker t ++
        [Out.draw (GizmoCmd.line_2d (t.transform_point a) (t.transform_point b) Color.WHITE),
         Out.draw (GizmoCmd.line_2d (t.transform_point b) (t.transform_point c) Color.WHITE),
         Out.draw (GizmoCmd.line_2d (t.transform_point c) (t.transform_point a) Color.WHITE)]) :=
  rfl

/-- C8: whenever the collider pass produces outputs for an entity (any shape
kind, unsupported included), the first two outputs are the fixed centre
cross-hair: the two gray segments through the four transformed arm tips
(0, 3), (3, 0), (0, -3), (-3, 0), emitted before the shape outline. -/
theorem center_marker_emitted_first (s : Shape) (t : Transform) (outs : List Out)
    (h : render_collider t s = some outs) :
    outs.take 2 = center_marker t ∧
    center_marker t =
      [Out.draw (GizmoCmd.line_2d (t.transform_point ⟨0, 3⟩)
          (t.transform_point ⟨0, -3⟩) Color.GRAY),
       Out.draw (GizmoCmd.line_2d (t.transform_point ⟨3, 0⟩)
          (t.transform_point ⟨-3, 0⟩) Color.GRAY)] := by
  refine ⟨?_, rfl⟩
  unfold render_collider at h
  cases hd : debug_shape_dispatch t s with
  | none => rw [hd] at h; simp at h
  | some ds =>
    rw [hd] at h
    have h2 : center_marker t ++ ds = outs := Option.some.inj h
    rw [← h2]
    rfl

/-- Witness for C8: a ball of radius 1 under the identity transform. -/
theorem center_marker_emitted_first_witness :
    ((center_marker Transform.identity ++
        [Out.draw (GizmoCmd.circle_2d Transform.identity.translation 1 Color.WHITE)]).take 2 =
      center_marker Transform.identity) ∧
    center_marker Transform.identity =
      [Out.draw (GizmoCmd.line_2d (Transform.identity.transform_point ⟨0, 3⟩)
          (Transform.identity.transform_point ⟨0, -3⟩) Color.GRAY),
       Out.draw (GizmoCmd.line_2d (Transform.identity.transform_point ⟨3, 0⟩)
          (Transform.identity.transform_point ⟨-3, 0⟩) Color.GRAY)] :=
  center_marker_emitted_first (Shape.ball 1) Transform.identity
    (center_marker Transform.identity ++
      [Out.draw (GizmoCmd.circle_2d Transform.identity.translation 1 Color.WHITE)]) rfl

/-- C9: the `.last().unwrap()` extraction succeeds for every polygon with at
least one point and for every cuboid polyline (always 4 points), so under the
spec's preconditions the panic branch is unreachable; a polygon with zero
points panics the pass (models as `none`) rather than drawing nothing. -/
theorem poly_unwrap_safety (pts : List Vec2) (t : Transform) (h : pts ≠ []) :
    (debug_shape_dispatch t (Shape.convexPolygon pts)).isSome = true ∧
    (∀ he : Vec2, (debug_shape_dispatch t (Shape.cuboid he)).isSome = true) ∧
    debug_shape_dispatch t (Shape.convexPolygon []) = none ∧
    debug_render_colliders [(Shape.convexPolygon [], t)] = none := by
  refine ⟨?_, fun he => rfl, rfl, rfl⟩
  obtain ⟨lp, hlp⟩ := Option.isSome_iff_exists.mp (List.getLast?_isSome.mpr h)
  simp [debug_shape_dispatch, Shape.as_ball, Shape.as_triangle,
    Shape.as_convex_polygon, hlp]

/-- Witness for C9: a one-point polygon under the identity transform. -/
theorem poly_unwrap_safety_witness :
    (([⟨0, 0⟩] : List Vec2) ≠ []) ∧
    ((debug_shape_dispatch Transform.identity
        (Shape.convexPolygon [⟨0, 0⟩])).isSome = true ∧
      (∀ he : Vec2,
        (debug_shape_dispatch Transform.identity (Shape.cuboid he)).isSome = true) ∧
      debug_shape_dispatch Transform.identity (Shape.convexPolygon []) = none ∧
      debug_render_colliders [(Shape.convexPolygon [], Transform.identity)] = none) :=
  ⟨by decide, poly_unwrap_safety [⟨0, 0⟩] Transform.identity (by decide)⟩

/-- C10: each scheduled pass is deterministic — equal collider lists, AABB
lists, event sequences and configurations yield identical output call
sequences for all three passes. -/
theorem passes_deterministic (cfg cfg2 : PhysicsDebugConfig)
    (ents ents2 : List (Shape × Transform)) (bs bs2 : List ColliderAabb)
    (evs evs2 : List Collision)
    (h1 : cfg = cfg2) (h2 : ents = ents2) (h3 : bs = bs2) (h4 : evs = evs2) :
    run_colliders_system cfg ents = run_colliders_system cfg2 ents2 ∧
    run_aabbs_system cfg bs = run_aabbs_system cfg2 bs2 ∧
    run_contacts_system cfg evs = run_contacts_system cfg2 evs2 := by
  subst h1 h2 h3 h4
  exact ⟨rfl, rfl, rfl⟩

/-- Witness for C10: the default configuration on one collider, one AABB and
one collision event. -/
theorem passes_deterministic_witness :
    run_colliders_system PhysicsDebugConfig.default
        [(Shape.ball 1, Transform.identity)] =
      run_colliders_system PhysicsDebugConfig.default
        [(Shape.ball 1, Transform.identity)] ∧
    run_aabbs_system PhysicsDebugConfig.default [⟨⟨0, 0⟩, ⟨2, 1⟩⟩] =
      run_aabbs_system PhysicsDebugConfig.default [⟨⟨0, 0⟩, ⟨2, 1⟩⟩] ∧
    run_contacts_system PhysicsDebugConfig.default [⟨⟨0, 0⟩, ⟨1, 1⟩⟩] =
      run_contacts_system PhysicsDebugConfig.default [⟨⟨0, 0⟩, ⟨1, 1⟩⟩] :=
  passes_deterministic PhysicsDebugConfig.default PhysicsDebugConfig.default
    [(Shape.ball 1, Transform.identity)] [(Shape.ball 1, Transform.identity)]
    [⟨⟨0, 0⟩, ⟨2, 1⟩⟩] [⟨⟨0, 0⟩, ⟨2, 1⟩⟩]
    [⟨⟨0, 0⟩, ⟨1, 1⟩⟩] [⟨⟨0, 0⟩, ⟨1, 1⟩⟩] rfl rfl rfl rfl

end Avian
